import Mathlib

/-!
# A DOM element builder (`src/lib.mjs`)

Shallow embedding of the fluent element builder, the pixel-string helper and
the background-image renderer, together with the properties stated about
them.

Modelling conventions.

* A JavaScript string is the list of its UTF-16 code units.
* Numbers are exact integers; the rendering of a number inside a template
  literal is its decimal numeral.
* A JavaScript object (a style set, an element's style mapping) is an
  insertion-ordered association list; a well-formed object has pairwise
  distinct keys.
* The mutable DOM is passed explicitly: a builder is identified with the
  current state of the element it wraps, every chainable method maps that
  state to the next one, and `setParent` returns the updated parent together
  with the raw node.
-/

namespace Lib

/-! ## Strings, numbers, objects -/

/-- A UTF-16 code unit. -/
abbrev CodeUnit := Nat

/-- A JavaScript string: its sequence of UTF-16 code units. -/
abbrev JSString := List CodeUnit

/-- The UTF-16 encoding of one Unicode scalar value. -/
def utf16 (c : Char) : List CodeUnit :=
  if c.toNat < 0x10000 then [c.toNat]
  else [0xD800 + (c.toNat - 0x10000) / 0x400, 0xDC00 + (c.toNat - 0x10000) % 0x400]

/-- A string literal of the source, as a JavaScript string. -/
def lit (s : String) : JSString :=
  (s.toList.map utf16).flatten

/-- Number-to-string conversion of a template literal. Numbers are modelled as exact
integers, floating point being left out; the conversion is the decimal numeral, which is
what JavaScript yields on the integers it represents exactly (magnitude below `2^53`). -/
def numberToString (n : Int) : JSString :=
  lit (toString n)

/-- The JavaScript values that occur as style values. -/
inductive JSValue where
  | str (s : JSString)
  | num (n : Int)
  deriving DecidableEq, Repr

/-- A JavaScript object with values in `β`: an insertion-ordered list of properties. -/
abbrev Props (β : Type) := List (JSString × β)

/-- A style set. -/
abbrev Obj := Props JSValue

/-- Property read `o[k]`: `none` stands for an absent key. -/
def Props.get {β : Type} : Props β → JSString → Option β
  | [], _ => none
  | (k', v') :: rest, k => if k' = k then some v' else Props.get rest k

/-- Property write `o[k] = v`: an existing key keeps its position, a new key goes last. -/
def Props.set {β : Type} : Props β → JSString → β → Props β
  | [], k, v => [(k, v)]
  | (k', v') :: rest, k, v =>
    if k' = k then (k', v) :: rest else (k', v') :: Props.set rest k v

/-- `Object.assign(target, source)`: every property of `source`, in order, is written
onto `target`. -/
def objectAssign (target source : Obj) : Obj :=
  source.foldl (fun t kv => Props.set t kv.1 kv.2) target

/-- `Array.prototype.forEach` with the `(element, index)` callback, threading the state
the callback mutates. -/
def forEach {α σ : Type} (f : σ → α → Nat → σ) : List α → Nat → σ → σ
  | [], _, s => s
  | x :: xs, idx, s => forEach f xs (idx + 1) (f s x idx)

/-- `text.split("")`: one single-code-unit string per code unit. -/
def split (text : JSString) : List JSString :=
  text.map (fun u => [u])

/-! ## DOM nodes -/

/-- The data of an element node over a node type `N`: tag, attributes, style mapping and
child nodes in document order. -/
structure ElementData (N : Type) where
  tag : JSString
  attributes : Props JSString
  style : Obj
  children : List N

/-- A DOM node: a text node or an element. -/
inductive Node where
  | text (data : JSString)
  | element (e : ElementData Node)

/-- An element node (`HTMLElement`). -/
abbrev Element := ElementData Node

/-- The document: its body element. -/
structure Document where
  body : Element

/-- `document.createElement(tag)`: a detached element without attributes, styles, children. -/
def documentCreateElement (tag : JSString) : Element :=
  ⟨tag, [], [], []⟩

/-- `document.createTextNode(text)`. -/
def documentCreateTextNode (text : JSString) : Node :=
  Node.text text

/-- `elem.setAttribute(name, value)`: the attribute of that name is set to the value,
replacing an earlier value. The name is taken as given. -/
def setAttribute (elem : Element) (name value : JSString) : Element :=
  { elem with attributes := Props.set elem.attributes name value }

/-- `parent.appendChild(child)` for a detached `child`: it becomes the last child. -/
def appendChild (parent : Element) (child : Node) : Element :=
  { parent with children := parent.children ++ [child] }

/-! ## The element builder -/

/-- Typing options: per-character duration and initial delay, in seconds. -/
structure TypingOptions where
  duration : Int
  delay : Int

/-- `createElement(tag)`: the builder `wrapper` around a fresh element. A builder is
identified with the current state of the element `nativeElem` it closes over; its methods
are the functions of the namespace `HTMLBuilder`, taking that state last. -/
def createElement (tag : JSString) : Element :=
  documentCreateElement tag

namespace HTMLBuilder

/-- `build()`: the raw node. -/
def build (nativeElem : Element) : Element :=
  nativeElem

/-- `setProperty(propertyName, propertyValue)`. -/
def setProperty (propertyName propertyValue : JSString) (nativeElem : Element) :
    Element :=
  setAttribute nativeElem propertyName propertyValue

/-- `setParent(parent)`: the parent after `parent.appendChild(nativeElem)`, and the value
returned, `wrapper.build()`. -/
def setParent (parent : Element) (nativeElem : Element) : Element × Element :=
  (appendChild parent (Node.element nativeElem), build nativeElem)

/-- `addTextNode(text)`. -/
def addTextNode (text : JSString) (nativeElem : Element) : Element :=
  let textNode := documentCreateTextNode text
  appendChild nativeElem textNode

/-- `style(styles)`: `Object.assign(nativeElem.style, styles)`. -/
def style (styles : Obj) (nativeElem : Element) : Element :=
  { nativeElem with style := objectAssign nativeElem.style styles }

/-- The seven animation properties written after the spread `...style` in the object
literal of `addAnimatedTextNode`, in source order. -/
def typingOverrides (delay duration : Int) (idx : Nat) : Obj :=
  [ (lit "display", JSValue.str (lit "inline-block")),
    (lit "whiteSpace", JSValue.str (lit "pre")),
    (lit "transform", JSValue.str (lit "scaleY(0)")),
    (lit "animationName", JSValue.str (lit "Typing")),
    (lit "animationDelay", JSValue.str (numberToString (delay + idx * duration) ++ lit "s")),
    (lit "animationDuration", JSValue.str (numberToString duration ++ lit "s")),
    (lit "animationFillMode", JSValue.str (lit "forwards")) ]

/-- The object literal passed to `style` for the character at `idx`: a fresh object
receiving the spread of the supplied style, then the animation properties. -/
def typingStyle (style : Obj) (delay duration : Int) (idx : Nat) : Obj :=
  objectAssign (objectAssign [] style) (typingOverrides delay duration idx)

/-- The span built for the character `c` at `idx`, before it is attached:
`createElement("span").style(...).addTextNode(c)`. -/
def charSpan (style : Obj) (delay duration : Int) (c : JSString) (idx : Nat) : Element :=
  addTextNode c
    (HTMLBuilder.style (typingStyle style delay duration idx) (createElement (lit "span")))

/-- `addAnimatedTextNode(text, options, style = {})`; an omitted `style` is `none`. -/
def addAnimatedTextNode (text : JSString) (options : TypingOptions) (style : Option Obj)
    (nativeElem : Element) : Element :=
  let style := style.getD []
  let delay := options.delay
  let duration := options.duration
  let chars := split text
  forEach (fun nativeElem c idx =>
    (setParent nativeElem (charSpan style delay duration c idx)).1) chars 0 nativeElem

end HTMLBuilder

/-! ## Helpers -/

/-- `renderBackgroundImage(wallpaper)`, acting on the document. -/
def renderBackgroundImage (wallpaper : JSString) (document : Document) : Document :=
  let img :=
    HTMLBuilder.style
      [ (lit "position", JSValue.str (lit "fixed")),
        (lit "top", JSValue.str (lit "50%")),
        (lit "left", JSValue.str (lit "50%")),
        (lit "display", JSValue.str (lit "inline-block")),
        (lit "width", JSValue.str (lit "fit-content")),
        (lit "maxWidth", JSValue.str (lit "70%")),
        (lit "maxHeight", JSValue.str (lit "70%")),
        (lit "opacity", JSValue.str (lit "0.1")),
        (lit "transform", JSValue.str (lit "translate(-50%, -50%)")),
        (lit "objectFit", JSValue.str (lit "cover")),
        (lit "zIndex", JSValue.str (lit "-1")) ]
      (HTMLBuilder.setProperty (lit "src") wallpaper (createElement (lit "img")))
  { document with body := (HTMLBuilder.setParent document.body img).1 }

/-! ## Call sequences on one builder -/

/-- One chainable call on a builder. -/
inductive BuilderCall where
  | setProperty (propertyName propertyValue : JSString)
  | addTextNode (text : JSString)
  | addAnimatedTextNode (text : JSString) (options : TypingOptions) (style : Option Obj)
  | style (styles : Obj)

/-- The effect of one call on the element under construction. -/
def BuilderCall.run : BuilderCall → Element → Element
  | BuilderCall.setProperty n v, e => HTMLBuilder.setProperty n v e
  | BuilderCall.addTextNode t, e => HTMLBuilder.addTextNode t e
  | BuilderCall.addAnimatedTextNode t o s, e => HTMLBuilder.addAnimatedTextNode t o s e
  | BuilderCall.style s, e => HTMLBuilder.style s e

/-- A chain of calls, made in list order. -/
def runCalls (calls : List BuilderCall) (e : Element) : Element :=
  calls.foldl (fun acc c => c.run acc) e

/-- The spans of a text: for every code unit with its index, the span the loop body of
`addAnimatedTextNode` builds for it. -/
def appendedSpans (text : JSString) (options : TypingOptions) (style : Option Obj) :
    List Node :=
  text.enum.map (fun p =>
    Node.element
      (HTMLBuilder.charSpan (style.getD []) options.delay options.duration [p.2] p.1))

/-- The children a call contributes, as the specification words it: one text node per
`addTextNode`, one span per code unit for `addAnimatedTextNode`, none otherwise. -/
def BuilderCall.contribution : BuilderCall → List Node
  | BuilderCall.setProperty _ _ => []
  | BuilderCall.addTextNode t => [Node.text t]
  | BuilderCall.addAnimatedTextNode t o s => appendedSpans t o s
  | BuilderCall.style _ => []

/-- The text held by a node: a text node's data, or the data of an element's own
text-node children, concatenated. -/
def Node.ownText : Node → JSString
  | Node.text d => d
  | Node.element e =>
    (e.children.map (fun n => match n with
      | Node.text d => d
      | Node.element _ => [])).flatten

/-! ## Script-side operations -/

/-- A call into the DOM made by the script. -/
inductive DomCall where
  | createElement (tag : JSString)
  | createTextNode (text : JSString)
  | appendChild
  | setAttribute (name value : JSString)
  | assignStyle (styles : Obj)

namespace Trace

/-- `createElement(tag)`, logging its DOM call. -/
def createElement (tag : JSString) (log : List DomCall) : Element × List DomCall :=
  (Lib.createElement tag, log ++ [DomCall.createElement tag])

/-- `style(styles)`, logging its DOM call. -/
def style (styles : Obj) (nativeElem : Element) (log : List DomCall) :
    Element × List DomCall :=
  (HTMLBuilder.style styles nativeElem, log ++ [DomCall.assignStyle styles])

/-- `addTextNode(text)`, logging its DOM calls. -/
def addTextNode (text : JSString) (nativeElem : Element) (log : List DomCall) :
    Element × List DomCall :=
  (HTMLBuilder.addTextNode text nativeElem,
    log ++ [DomCall.createTextNode text, DomCall.appendChild])

/-- `setParent(parent)`, logging its DOM call: the parent afterwards and the log. -/
def setParent (parent : Element) (nativeElem : Element) (log : List DomCall) :
    Element × List DomCall :=
  ((HTMLBuilder.setParent parent nativeElem).1, log ++ [DomCall.appendChild])

/-- The callback of the `forEach` in `addAnimatedTextNode` for the character `c` at `idx`,
logging its DOM calls: create the span, style it, give it its text node, attach it. -/
def typeChar (style : Obj) (delay duration : Int) (st : Element × List DomCall)
    (c : JSString) (idx : Nat) : Element × List DomCall :=
  let created := createElement (lit "span") st.2
  let styled := Trace.style (HTMLBuilder.typingStyle style delay duration idx)
    created.1 created.2
  let filled := addTextNode c styled.1 styled.2
  setParent st.1 filled.1 filled.2

/-- `addAnimatedTextNode(text, options, style)`, logging every DOM call in the order
made. -/
def addAnimatedTextNode (text : JSString) (options : TypingOptions) (style : Option Obj)
    (nativeElem : Element) (log : List DomCall) : Element × List DomCall :=
  let style := style.getD []
  let delay := options.delay
  let duration := options.duration
  let chars := split text
  forEach (typeChar style delay duration) chars 0 (nativeElem, log)

end Trace

/-- The number of script-side operations (DOM calls) one `addAnimatedTextNode` call makes
on a node. -/
def addAnimatedTextNodeCost (text : JSString) (options : TypingOptions) (style : Option Obj)
    (nativeElem : Element) : Nat :=
  (Trace.addAnimatedTextNode text options style nativeElem []).2.length

/-! ## Specification-side definitions -/

/-- The loop of `addAnimatedTextNode` only extends the child list, by one element per
code unit, in order. -/
theorem forEach_setParent (g : JSString → Nat → Element) (text : JSString) (i : Nat)
    (e : Element) :
    forEach (fun (acc : Element) c idx => (HTMLBuilder.setParent acc (g c idx)).1)
        (split text) i e
      = { e with children :=
            e.children ++ (text.enumFrom i).map (fun p => Node.element (g [p.2] p.1)) } := by
  induction text generalizing i e with
  | nil => simp [split, forEach]
  | cons u rest ih =>
    have ih' := ih (i + 1) (HTMLBuilder.setParent e (g [u] i)).1
    simp only [split, List.map_cons, forEach] at ih' ⊢
    rw [ih']
    simp [HTMLBuilder.setParent, appendChild, List.enumFrom_cons]

theorem addAnimatedTextNode_eq (text : JSString) (options : TypingOptions)
    (style : Option Obj) (e : Element) :
    HTMLBuilder.addAnimatedTextNode text options style e
      = { e with children := e.children ++ appendedSpans text options style } := by
  simp only [HTMLBuilder.addAnimatedTextNode, appendedSpans, List.enum]
  exact forEach_setParent _ text 0 e

theorem appendedSpans_length (text : JSString) (options : TypingOptions) (style : Option Obj) :
    (appendedSpans text options style).length = text.length := by
  simp [appendedSpans]

theorem appendedSpans_getElem? (text : JSString) (options : TypingOptions)
    (style : Option Obj) (idx : Nat) (h : idx < text.length) :
    (appendedSpans text options style)[idx]?
      = some (Node.element
          (HTMLBuilder.charSpan (style.getD []) options.delay options.duration
            [text[idx]] idx)) := by
  simp [appendedSpans, List.getElem?_map, List.getElem?_enum, List.getElem?_eq_getElem h]

theorem charSpan_children (style : Obj) (delay duration : Int) (c : JSString) (idx : Nat) :
    (HTMLBuilder.charSpan style delay duration c idx).children = [Node.text c] := by
  simp [HTMLBuilder.charSpan, HTMLBuilder.addTextNode, HTMLBuilder.style, appendChild,
    createElement, documentCreateElement, documentCreateTextNode]

theorem charSpan_tag (style : Obj) (delay duration : Int) (c : JSString) (idx : Nat) :
    (HTMLBuilder.charSpan style delay duration c idx).tag = lit "span" := by
  simp [HTMLBuilder.charSpan, HTMLBuilder.addTextNode, HTMLBuilder.style, appendChild,
    createElement, documentCreateElement]

theorem ownText_spans (style : Obj) (delay duration : Int) (text : JSString) (i : Nat) :
    (((text.enumFrom i).map (fun p =>
        Node.element (HTMLBuilder.charSpan style delay duration [p.2] p.1))).map
      Node.ownText).flatten = text := by
  induction text generalizing i with
  | nil => simp
  | cons u rest ih =>
    have ih' := ih (i + 1)
    simp only [List.map_map] at ih' ⊢
    simp only [List.enumFrom_cons, List.map_cons, List.flatten_cons, ih']
    simp [Node.ownText, charSpan_children]

theorem run_children (c : BuilderCall) (e : Element) :
    (c.run e).children = e.children ++ c.contribution := by
  cases c with
  | setProperty n v => simp [BuilderCall.run, BuilderCall.contribution,
      HTMLBuilder.setProperty, setAttribute]
  | addTextNode t => simp [BuilderCall.run, BuilderCall.contribution,
      HTMLBuilder.addTextNode, appendChild, documentCreateTextNode]
  | addAnimatedTextNode t o s =>
    simp [BuilderCall.run, BuilderCall.contribution, addAnimatedTextNode_eq, appendedSpans]
  | style st => simp [BuilderCall.run, BuilderCall.contribution, HTMLBuilder.style]

theorem runCalls_append (calls : List BuilderCall) (c : BuilderCall) (e : Element) :
    runCalls (calls ++ [c]) e = c.run (runCalls calls e) := by
  simp [runCalls, List.foldl_append]

theorem runCalls_children (calls : List BuilderCall) (e : Element) :
    (runCalls calls e).children
      = e.children ++ (calls.map BuilderCall.contribution).flatten := by
  induction calls generalizing e with
  | nil => simp [runCalls]
  | cons c rest ih =>
    have h := ih (c.run e)
    simp only [runCalls, List.foldl_cons] at h ⊢
    rw [h, run_children]
    simp [List.append_assoc]

theorem typeChar_fst (style : Obj) (delay duration : Int) (st : Element × List DomCall)
    (c : JSString) (idx : Nat) :
    (Trace.typeChar style delay duration st c idx).1
      = (HTMLBuilder.setParent st.1 (HTMLBuilder.charSpan style delay duration c idx)).1 :=
  rfl

theorem typeChar_snd_length (style : Obj) (delay duration : Int)
    (st : Element × List DomCall) (c : JSString) (idx : Nat) :
    (Trace.typeChar style delay duration st c idx).2.length = st.2.length + 5 := by
  simp [Trace.typeChar, Trace.createElement, Trace.style, Trace.addTextNode, Trace.setParent]

theorem trace_forEach (style : Obj) (delay duration : Int) (text : JSString) (i : Nat)
    (st : Element × List DomCall) :
    (forEach (Trace.typeChar style delay duration) (split text) i st).1
      = forEach (fun (acc : Element) c idx =>
          (HTMLBuilder.setParent acc (HTMLBuilder.charSpan style delay duration c idx)).1)
          (split text) i st.1
    ∧ (forEach (Trace.typeChar style delay duration) (split text) i st).2.length
      = st.2.length + 5 * text.length := by
  induction text generalizing i st with
  | nil => simp [split, forEach]
  | cons u rest ih =>
    simp only [split, List.map_cons, forEach] at ih ⊢
    refine ⟨?_, ?_⟩
    · rw [(ih _ _).1, typeChar_fst]
    · rw [(ih _ _).2, typeChar_snd_length]
      simp
      omega

/-- The logged run builds the same node as `addAnimatedTextNode`. -/
theorem trace_result (text : JSString) (options : TypingOptions) (style : Option Obj)
    (e : Element) (log : List DomCall) :
    (Trace.addAnimatedTextNode text options style e log).1
      = HTMLBuilder.addAnimatedTextNode text options style e :=
  (trace_forEach (style.getD []) options.delay options.duration text 0 (e, log)).1

theorem addAnimatedTextNodeCost_eq (text : JSString) (options : TypingOptions)
    (style : Option Obj) (e : Element) :
    addAnimatedTextNodeCost text options style e = 5 * text.length := by
  have h := (trace_forEach (style.getD []) options.delay options.duration text 0 (e, [])).2
  simp only [List.length_nil, Nat.zero_add] at h
  exact h

/-! ## Lemmas on number rendering -/

/-- A character outside the basic plane is two code units, a surrogate pair. -/
theorem lit_surrogate_pair :
    lit (String.singleton (Char.ofNat 0x1F600)) = [0xD83D, 0xDE00] := by decide

/-- C1: `addAnimatedTextNode(T, options, style)` appends exactly `length(T)` children to
the builder's node, also for the empty text; the child for position `idx` is a span whose
only child is the text node holding the single code unit `T[idx]`, and the appended
children read in order spell `T`. -/
theorem addAnimatedTextNode_one_span_per_code_unit (text : JSString)
    (options : TypingOptions) (style : Option Obj) (e : Element) :
    (HTMLBuilder.addAnimatedTextNode [] options style e).children = e.children ∧
    ∃ spans : List Node,
      (HTMLBuilder.addAnimatedTextNode text options style e).children = e.children ++ spans ∧
      spans.length = text.length ∧
      (∀ (idx : Nat) (h : idx < text.length), ∃ span : Element,
        spans[idx]? = some (Node.element span) ∧ span.tag = lit "span" ∧
        span.children = [Node.text [text[idx]]]) ∧
      (spans.map Node.ownText).flatten = text := by
  refine ⟨by simp [addAnimatedTextNode_eq, appendedSpans], appendedSpans text options style,
    by rw [addAnimatedTextNode_eq], appendedSpans_length text options style, ?_, ?_⟩
  · intro idx h
    exact ⟨_, appendedSpans_getElem? text options style idx h, charSpan_tag _ _ _ _ _,
      charSpan_children _ _ _ _ _⟩
  · exact ownText_spans _ _ _ text 0

/-- C4: `setParent(parentNode)` appends the builder's node as the last child of
`parentNode`, leaving the earlier children in place, and returns that same raw node.
End to end, `createElement("div").setProperty("id","root").addTextNode("hi")` attached to
a container gives the container one more child, a `div` whose `id` attribute is `"root"`
and whose only child is the text node `"hi"`; an empty container has exactly that child. -/
theorem setParent_appends_last (parent nativeElem container : Element)
    (h : container.children = []) :
    (HTMLBuilder.setParent parent nativeElem).1.children
        = parent.children ++ [Node.element nativeElem] ∧
    (HTMLBuilder.setParent parent nativeElem).2 = nativeElem ∧
    (HTMLBuilder.setParent parent nativeElem).1.tag = parent.tag ∧
    (HTMLBuilder.setParent parent nativeElem).1.attributes = parent.attributes ∧
    (HTMLBuilder.setParent parent nativeElem).1.style = parent.style ∧
    ∃ div : Element,
      (HTMLBuilder.setParent container
          (HTMLBuilder.addTextNode (lit "hi")
            (HTMLBuilder.setProperty (lit "id") (lit "root")
              (createElement (lit "div"))))).1.children = [Node.element div] ∧
      (HTMLBuilder.setParent container
          (HTMLBuilder.addTextNode (lit "hi")
            (HTMLBuilder.setProperty (lit "id") (lit "root")
              (createElement (lit "div"))))).2 = div ∧
      div.tag = lit "div" ∧
      div.attributes.get (lit "id") = some (lit "root") ∧
      div.attributes = [(lit "id", lit "root")] ∧
      div.children = [Node.text (lit "hi")] := by
  refine ⟨rfl, rfl, rfl, rfl, rfl,
    HTMLBuilder.addTextNode (lit "hi")
      (HTMLBuilder.setProperty (lit "id") (lit "root") (createElement (lit "div"))),
    ?_, rfl, rfl, ?_, rfl, rfl⟩
  · simp [HTMLBuilder.setParent, appendChild, h]
  · simp [HTMLBuilder.addTextNode, HTMLBuilder.setProperty, appendChild, setAttribute,
      createElement, documentCreateElement, Props.set, Props.get]

/-- Witness of C4: the container is a fresh `main` element, the parent a fresh `ul`
receiving a fresh `li`. -/
theorem setParent_appends_last_witness :
    (createElement (lit "main")).children = [] ∧
    (HTMLBuilder.setParent (createElement (lit "ul")) (createElement (lit "li"))).1.children
      = [Node.element (createElement (lit "li"))] ∧
    ∃ div : Element,
      (HTMLBuilder.setParent (createElement (lit "main"))
          (HTMLBuilder.addTextNode (lit "hi")
            (HTMLBuilder.setProperty (lit "id") (lit "root")
              (createElement (lit "div"))))).1.children = [Node.element div] ∧
      div.attributes.get (lit "id") = some (lit "root") ∧
      div.children = [Node.text (lit "hi")] :=
  have w := setParent_appends_last (createElement (lit "ul")) (createElement (lit "li"))
    (createElement (lit "main")) rfl
  ⟨rfl, w.1, w.2.2.2.2.2.elim fun div hd => ⟨div, hd.1, hd.2.2.2.1, hd.2.2.2.2.2⟩⟩

/-- C5: `renderBackgroundImage(w)` gives the document body exactly one additional child,
appended last: an `img` whose `src` attribute is `w`, with opacity `"0.1"`, zIndex `"-1"`
and maxWidth and maxHeight `"70%"`; the earlier children of the body are unchanged and
keep their order, as do its tag, attributes and style. -/
theorem renderBackgroundImage_appends_img (wallpaper : JSString) (document : Document) :
    ∃ img : Element,
      (renderBackgroundImage wallpaper document).body.children
        = document.body.children ++ [Node.element img] ∧
      img.tag = lit "img" ∧
      img.attributes.get (lit "src") = some wallpaper ∧
      img.children = [] ∧
      img.style.get (lit "opacity") = some (JSValue.str (lit "0.1")) ∧
      img.style.get (lit "zIndex") = some (JSValue.str (lit "-1")) ∧
      img.style.get (lit "maxWidth") = some (JSValue.str (lit "70%")) ∧
      img.style.get (lit "maxHeight") = some (JSValue.str (lit "70%")) ∧
      (renderBackgroundImage wallpaper document).body.tag = document.body.tag ∧
      (renderBackgroundImage wallpaper document).body.attributes = document.body.attributes ∧
      (renderBackgroundImage wallpaper document).body.style = document.body.style := by
  refine ⟨_, rfl, rfl, ?_, rfl, ?_, ?_, ?_, ?_, rfl, rfl, rfl⟩
  · simp [HTMLBuilder.style, HTMLBuilder.setProperty, setAttribute, createElement,
      documentCreateElement, Props.set, Props.get]
  all_goals
    simp only [HTMLBuilder.style, HTMLBuilder.setProperty, setAttribute, createElement,
      documentCreateElement]
    decide

/-- C7: children reflect insertion order. After any sequence of `addTextNode`,
`addAnimatedTextNode`, `setProperty` and `style` calls on one builder the child list is the
earlier children followed by the contributions of the calls in call order: one text node
per `addTextNode`, `length(T)` spans per `addAnimatedTextNode`, nothing for `setProperty`
and `style`. Each call keeps the children already present as an unchanged prefix. -/
theorem children_reflect_insertion_order (calls : List BuilderCall) (e : Element) :
    (runCalls calls e).children
        = e.children ++ (calls.map BuilderCall.contribution).flatten ∧
    (∀ c : BuilderCall,
      (runCalls (calls ++ [c]) e).children
        = (runCalls calls e).children ++ c.contribution) ∧
    (∀ text : JSString, (BuilderCall.addTextNode text).contribution = [Node.text text]) ∧
    (∀ (text : JSString) (options : TypingOptions) (style : Option Obj),
      ((BuilderCall.addAnimatedTextNode text options style).contribution).length
        = text.length) ∧
    (∀ n v : JSString, (BuilderCall.setProperty n v).contribution = []) ∧
    (∀ styles : Obj, (BuilderCall.style styles).contribution = []) := by
  refine ⟨runCalls_children calls e, ?_, fun _ => rfl, ?_, fun _ _ => rfl, fun _ => rfl⟩
  · intro c
    rw [runCalls_append, run_children]
  · intro text options style
    exact appendedSpans_length text options style

/-- Counterexample to C9: no constant bounds the number of script-side operations of
`addAnimatedTextNode` over all texts. -/
theorem addAnimatedTextNodeCost_unbounded :
    ¬ ∃ C : Nat, ∀ (text : JSString) (options : TypingOptions) (style : Option Obj)
        (nativeElem : Element),
        addAnimatedTextNodeCost text options style nativeElem ≤ C := by
  rintro ⟨C, hC⟩
  have h := hC (List.replicate (C + 1) 97) ⟨1, 0⟩ none (createElement (lit "p"))
  rw [addAnimatedTextNodeCost_eq, List.length_replicate] at h
  omega

/-- C9, amended: `addAnimatedTextNode` performs exactly `5 * length(T)` script-side
operations (per code unit one element creation, one style assignment, one text-node
creation and two child attachments), whatever the node, the options and the style: the
cost is linear in the length of the text, with a constant cost per character. The logged
run counted here builds the same node as `addAnimatedTextNode`. -/
theorem addAnimatedTextNodeCost_linear (text : JSString) (options : TypingOptions)
    (style : Option Obj) (nativeElem : Element) :
    addAnimatedTextNodeCost text options style nativeElem = 5 * text.length ∧
    (∀ u : CodeUnit,
      addAnimatedTextNodeCost (text ++ [u]) options style nativeElem
        = addAnimatedTextNodeCost text options style nativeElem + 5) ∧
    (Trace.addAnimatedTextNode text options style nativeElem []).1
      = HTMLBuilder.addAnimatedTextNode text options style nativeElem := by
  refine ⟨addAnimatedTextNodeCost_eq text options style nativeElem, fun u => ?_,
    trace_result text options style nativeElem []⟩
  rw [addAnimatedTextNodeCost_eq, addAnimatedTextNodeCost_eq]
  simp
  omega

end Lib
